import Mathlib

/-
  Verification of the peer-to-peer video call negotiation core of the
  clarioo repository: a shallow embedding of webrtcService.ts,
  mediaService.ts and the useVideoCall hook (signal handler, bootstrap,
  screen share, connection-failure restart), together with theorems about
  the offer/answer/candidate state machine they drive.
-/

namespace Clarioo

/-- The type tag of an RTCSessionDescriptionInit: offer, answer or rollback. -/
inductive SdpType
  | offer
  | answer
  | rollback
deriving DecidableEq

/-- A session description: its type tag and its SDP body, modelled as a list
of SDP lines (the repository only ever inspects and rewrites the SDP line
by line, in optimizeSDP). -/
structure SessionDesc where
  ty : SdpType
  sdpLines : List String
deriving DecidableEq

/-- The W3C signaling state axis of an RTCPeerConnection, restricted to the
states this repository can reach. -/
inductive SignalingState
  | stable
  | haveLocalOffer
  | haveRemoteOffer
  | closed
deriving DecidableEq

/-- An ICE candidate descriptor (RTCIceCandidateInit payload). -/
structure IceCandidate where
  candidate : String
deriving DecidableEq

/-- A local media track: its kind (audio or video as a string, mirroring
MediaStreamTrack.kind), the enabled flag toggled by the media controls and
the stopped flag set by track.stop(). -/
structure MediaTrack where
  id : Nat
  kind : String
  enabled : Bool
  stopped : Bool
deriving DecidableEq

/-- A media stream: an ordered collection of tracks. -/
structure MediaStream where
  tracks : List MediaTrack
deriving DecidableEq

/-- getAudioTracks() of the browser MediaStream. -/
def MediaStream.getAudioTracks (s : MediaStream) : List MediaTrack :=
  s.tracks.filter (fun t => t.kind == "audio")

/-- getVideoTracks() of the browser MediaStream. -/
def MediaStream.getVideoTracks (s : MediaStream) : List MediaTrack :=
  s.tracks.filter (fun t => t.kind == "video")

/-- All tracks of a stream report stopped. -/
def MediaStream.allStopped (s : MediaStream) : Bool :=
  s.tracks.all (fun t => t.stopped)

/-- Errors raised by the browser peer connection primitives or by the
null-checks of WebRTCService. -/
inductive RTCError
  | invalidState
  | notInitialized
deriving DecidableEq

/-- Model of the browser RTCPeerConnection object as the repository uses it:
the signaling state machine, the committed local and remote descriptions,
the candidates applied so far, the sender list (one track per sender) and a
counter used to generate fresh SDP bodies. -/
structure RTCPeerConnection where
  signalingState : SignalingState
  localDescription : Option SessionDesc
  remoteDescription : Option SessionDesc
  appliedCandidates : List IceCandidate
  senders : List MediaTrack
  descCounter : Nat
deriving DecidableEq

/-- A freshly constructed RTCPeerConnection: stable, no descriptions, no
candidates, no senders. -/
def RTCPeerConnection.new : RTCPeerConnection :=
  { signalingState := .stable
    localDescription := none
    remoteDescription := none
    appliedCandidates := []
    senders := []
    descCounter := 0 }

/-- Browser primitive pc.createOffer(): produces a fresh offer description.
Allowed in any non-closed state (also while an earlier offer is pending,
in which case the later setLocalDescription replaces it); the generated SDP
contains a video media line so that optimizeSDP has something to rewrite. -/
def RTCPeerConnection.createOfferPrim (pc : RTCPeerConnection) :
    Except RTCError (SessionDesc × RTCPeerConnection) :=
  if pc.signalingState = .closed then .error .invalidState
  else
    .ok (⟨.offer, ["o=offer-" ++ toString pc.descCounter, "m=video 9 UDP/TLS/RTP"]⟩,
         { pc with descCounter := pc.descCounter + 1 })

/-- Browser primitive pc.createAnswer(): valid only with a remote offer
committed (signaling state have-remote-offer). -/
def RTCPeerConnection.createAnswerPrim (pc : RTCPeerConnection) :
    Except RTCError (SessionDesc × RTCPeerConnection) :=
  if pc.signalingState = .haveRemoteOffer then
    .ok (⟨.answer, ["o=answer-" ++ toString pc.descCounter]⟩,
         { pc with descCounter := pc.descCounter + 1 })
  else .error .invalidState

/-- Browser primitive pc.setLocalDescription(d), per the W3C signaling state
machine: an offer is committed from stable or have-local-offer (a re-offer
replaces the pending one), an answer from have-remote-offer, and a rollback
discards a pending local offer; every other combination rejects with
InvalidStateError. -/
def RTCPeerConnection.setLocalDescription (pc : RTCPeerConnection) (d : SessionDesc) :
    Except RTCError RTCPeerConnection :=
  match d.ty, pc.signalingState with
  | .offer, .stable =>
      .ok { pc with signalingState := .haveLocalOffer, localDescription := some d }
  | .offer, .haveLocalOffer =>
      .ok { pc with signalingState := .haveLocalOffer, localDescription := some d }
  | .answer, .haveRemoteOffer =>
      .ok { pc with signalingState := .stable, localDescription := some d }
  | .rollback, .haveLocalOffer =>
      .ok { pc with signalingState := .stable, localDescription := none }
  | _, _ => .error .invalidState

/-- Browser primitive pc.setRemoteDescription(d): a remote offer is accepted
from stable or have-remote-offer, a remote answer only from
have-local-offer; every other combination rejects with InvalidStateError. -/
def RTCPeerConnection.setRemoteDescription (pc : RTCPeerConnection) (d : SessionDesc) :
    Except RTCError RTCPeerConnection :=
  match d.ty, pc.signalingState with
  | .offer, .stable =>
      .ok { pc with signalingState := .haveRemoteOffer, remoteDescription := some d }
  | .offer, .haveRemoteOffer =>
      .ok { pc with signalingState := .haveRemoteOffer, remoteDescription := some d }
  | .answer, .haveLocalOffer =>
      .ok { pc with signalingState := .stable, remoteDescription := some d }
  | _, _ => .error .invalidState

/-- Browser primitive pc.addIceCandidate(c): rejects with InvalidStateError
when no remote description has been set; otherwise the candidate is applied
(appended to the applied list, preserving arrival order). The browser keeps
no queue for candidates that arrive too early. -/
def RTCPeerConnection.addIceCandidatePrim (pc : RTCPeerConnection) (c : IceCandidate) :
    Except RTCError RTCPeerConnection :=
  if pc.signalingState = .closed then .error .invalidState
  else
    match pc.remoteDescription with
    | none => .error .invalidState
    | some _ => .ok { pc with appliedCandidates := pc.appliedCandidates ++ [c] }

/-- Browser primitive pc.addTrack(t): appends a new sender holding t. -/
def RTCPeerConnection.addTrack (pc : RTCPeerConnection) (t : MediaTrack) : RTCPeerConnection :=
  { pc with senders := pc.senders ++ [t] }

/-- sender.replaceTrack(t) applied to the first sender whose current track
has the given kind (the sender the repository finds with
senders.find(s => s.track.kind === kind)). -/
def replaceFirstOfKind : List MediaTrack → String → MediaTrack → List MediaTrack
  | [], _, _ => []
  | s :: rest, kind, t =>
      if s.kind == kind then t :: rest else s :: replaceFirstOfKind rest kind t

/-- Browser primitive pc.close(). -/
def RTCPeerConnection.closePrim (pc : RTCPeerConnection) : RTCPeerConnection :=
  { pc with signalingState := .closed }

/-- The connectivity axis (RTCPeerConnectionState) observed by the
onconnectionstatechange handler. -/
inductive ConnectionState
  | new
  | connecting
  | connected
  | disconnected
  | failed
  | closed
deriving DecidableEq

/-- State of the WebRTCService class of webrtcService.ts: the nullable
peerConnection and localStream fields. -/
structure WebRTCService where
  peerConnection : Option RTCPeerConnection
  localStream : Option MediaStream
deriving DecidableEq

/-- The WebRTCService constructor: builds a fresh RTCPeerConnection (with
the STUN and TURN configuration) and installs quality monitoring. -/
def WebRTCService.new : WebRTCService :=
  { peerConnection := some RTCPeerConnection.new, localStream := none }

/-- optimizeSDP of webrtcService.ts: after every SDP line that opens a video
media section it inserts a bandwidth cap line (the regex replace on
m=video lines). -/
def WebRTCService.optimizeSDP (d : SessionDesc) : SessionDesc :=
  { d with
    sdpLines :=
      d.sdpLines.flatMap (fun l =>
        if l.startsWith "m=video" then [l, "b=AS:2000"] else [l]) }

/-- WebRTCService.initialize(stream): stores the stream in localStream and
adds every one of its tracks to the peer connection. Throws when the peer
connection is gone. -/
def WebRTCService.initialize (s : WebRTCService) (stream : MediaStream) :
    Except RTCError WebRTCService :=
  match s.peerConnection with
  | none => .error .notInitialized
  | some pc =>
      .ok { s with
              localStream := some stream
              peerConnection := some (stream.tracks.foldl RTCPeerConnection.addTrack pc) }

/-- WebRTCService.createOffer(): creates an offer, optimizes the SDP,
commits it with setLocalDescription and returns it. It performs no check
that the signaling state is stable. -/
def WebRTCService.createOffer (s : WebRTCService) :
    Except RTCError (SessionDesc × WebRTCService) :=
  match s.peerConnection with
  | none => .error .notInitialized
  | some pc =>
      match RTCPeerConnection.createOfferPrim pc with
      | .error e => .error e
      | .ok (offer, pc1) =>
          let optimizedOffer := WebRTCService.optimizeSDP offer
          match RTCPeerConnection.setLocalDescription pc1 optimizedOffer with
          | .error e => .error e
          | .ok pc2 => .ok (optimizedOffer, { s with peerConnection := some pc2 })

/-- WebRTCService.createAnswer(offer): sets the remote description from the
offer, creates an answer, commits it locally and returns it. -/
def WebRTCService.createAnswer (s : WebRTCService) (offer : SessionDesc) :
    Except RTCError (SessionDesc × WebRTCService) :=
  match s.peerConnection with
  | none => .error .notInitialized
  | some pc =>
      match RTCPeerConnection.setRemoteDescription pc offer with
      | .error e => .error e
      | .ok pc1 =>
          match RTCPeerConnection.createAnswerPrim pc1 with
          | .error e => .error e
          | .ok (answer, pc2) =>
              match RTCPeerConnection.setLocalDescription pc2 answer with
              | .error e => .error e
              | .ok pc3 => .ok (answer, { s with peerConnection := some pc3 })

/-- WebRTCService.setRemoteDescription(description). -/
def WebRTCService.setRemoteDescription (s : WebRTCService) (d : SessionDesc) :
    Except RTCError WebRTCService :=
  match s.peerConnection with
  | none => .error .notInitialized
  | some pc =>
      match RTCPeerConnection.setRemoteDescription pc d with
      | .error e => .error e
      | .ok pc1 => .ok { s with peerConnection := some pc1 }

/-- WebRTCService.addIceCandidate(candidate): forwards to the browser
primitive; it keeps no queue of its own. -/
def WebRTCService.addIceCandidate (s : WebRTCService) (c : IceCandidate) :
    Except RTCError WebRTCService :=
  match s.peerConnection with
  | none => .error .notInitialized
  | some pc =>
      match RTCPeerConnection.addIceCandidatePrim pc c with
      | .error e => .error e
      | .ok pc1 => .ok { s with peerConnection := some pc1 }

/-- WebRTCService.close(): closes and drops the peer connection, stops every
track of the local stream and drops it. Total (no throw path). The second
component is the final state of the local stream object whose tracks were
stopped, for observing that no track is left running. -/
def WebRTCService.close (s : WebRTCService) : WebRTCService × Option MediaStream :=
  ({ peerConnection := none, localStream := none },
   s.localStream.map (fun st => ⟨st.tracks.map (fun t => { t with stopped := true })⟩))

/-- WebRTCService.restartIce(): guarded by a null check on the peer
connection; creates an offer with iceRestart and commits it locally. Any
error is caught and logged, so the call never throws. Nothing is ever
published to the signal channel from here. -/
def WebRTCService.restartIce (s : WebRTCService) : WebRTCService :=
  match s.peerConnection with
  | none => s
  | some pc =>
      match RTCPeerConnection.createOfferPrim pc with
      | .error _ => s
      | .ok (offer, pc1) =>
          match RTCPeerConnection.setLocalDescription pc1 offer with
          | .error _ => s
          | .ok pc2 => { s with peerConnection := some pc2 }

/-- The onconnectionstatechange handler installed by setupQualityMonitoring:
a transition to the failed connectivity state triggers one restartIce call;
every other transition is only logged. -/
def WebRTCService.onConnectionStateChangeEvent (s : WebRTCService) (st : ConnectionState) :
    WebRTCService :=
  if st = .failed then WebRTCService.restartIce s else s

/-- The name of a DOMException raised by navigator.mediaDevices. -/
inductive MediaErrorName
  | NotAllowedError
  | NotFoundError
  | NotReadableError
  | AbortError
  | other (s : String)
deriving DecidableEq

/-- The err.name string of a media DOMException. -/
def MediaErrorName.name : MediaErrorName → String
  | .NotAllowedError => "NotAllowedError"
  | .NotFoundError => "NotFoundError"
  | .NotReadableError => "NotReadableError"
  | .AbortError => "AbortError"
  | .other s => s

/-- Model of the browser media-device environment: what
navigator.mediaDevices.getUserMedia returns for the full audio+video
request and what it returns for the audio-only fallback request. -/
structure MediaDevicesEnv where
  fullRequest : Except MediaErrorName MediaStream
  audioOnlyRequest : Except MediaErrorName MediaStream

/-- MediaService.getUserMedia: requests audio+video; on NotReadableError or
AbortError it automatically retries once with audio-only constraints and
surfaces an error only when that also fails; every other failure is
surfaced at once with a message embedding the DOMException name. The second
component counts the getUserMedia acquisition attempts made. -/
def MediaService.getUserMedia (env : MediaDevicesEnv) :
    Except String MediaStream × Nat :=
  match env.fullRequest with
  | .ok s => (.ok s, 1)
  | .error err =>
      if err = .NotReadableError ∨ err = .AbortError then
        match env.audioOnlyRequest with
        | .ok audioOnly => (.ok audioOnly, 2)
        | .error _ => (.error "Microphone unavailable. Close other apps using it.", 2)
      else (.error ("Failed to access media: " ++ MediaErrorName.name err), 1)

/-- MediaService.toggleAudio(stream, enabled): sets the enabled flag on
every audio track and returns audioTracks.length > 0 && enabled. The first
component is the stream after the mutation. -/
def MediaService.toggleAudio (stream : MediaStream) (enabled : Bool) :
    MediaStream × Bool :=
  (⟨stream.tracks.map (fun t => if t.kind == "audio" then { t with enabled := enabled } else t)⟩,
   decide (0 < (MediaStream.getAudioTracks stream).length) && enabled)

/-- MediaService.toggleVideo(stream, enabled): sets the enabled flag on
every video track and returns videoTracks.length > 0 && enabled. -/
def MediaService.toggleVideo (stream : MediaStream) (enabled : Bool) :
    MediaStream × Bool :=
  (⟨stream.tracks.map (fun t => if t.kind == "video" then { t with enabled := enabled } else t)⟩,
   decide (0 < (MediaStream.getVideoTracks stream).length) && enabled)

/-- MediaService.replaceTrack(pc, newStream, trackType): takes the first
track of the requested kind from the new stream (throwing when there is
none), looks for an existing sender of that kind, and swaps the track when
one exists; when no such sender exists it resolves without doing
anything. -/
def MediaService.replaceTrack (pc : RTCPeerConnection) (newStream : MediaStream)
    (trackType : String) : Except String RTCPeerConnection :=
  let newTrack :=
    if trackType == "audio" then (MediaStream.getAudioTracks newStream).head?
    else (MediaStream.getVideoTracks newStream).head?
  match newTrack with
  | none => .error ("No " ++ trackType ++ " track in stream")
  | some t =>
      match pc.senders.find? (fun s => s.kind == trackType) with
      | some _ => .ok { pc with senders := replaceFirstOfKind pc.senders trackType t }
      | none => .ok pc

/-- The kind tag of a signaling message stored in the signals table. -/
inductive SignalKind
  | offer
  | answer
  | ice
deriving DecidableEq

/-- The signal_data payload: a session description for offer and answer
messages, a candidate for ice messages. -/
inductive SignalData
  | desc (d : SessionDesc)
  | cand (c : IceCandidate)
deriving DecidableEq

/-- A row of the signals table (SupabaseService.Signal as the negotiation
code reads it): room, sender, kind and payload. -/
structure Signal where
  room_id : String
  sender_id : String
  signal_type : SignalKind
  signal_data : SignalData
deriving DecidableEq

/-- A signal row carries the payload shape its kind promises (offers and
answers carry a description of the matching type, ice rows a candidate). -/
def wellFormedSignal (s : Signal) : Bool :=
  match s.signal_type, s.signal_data with
  | .offer, .desc d => d.ty == .offer
  | .answer, .desc d => d.ty == .answer
  | .ice, .cand _ => true
  | _, _ => false

/-- The per-membership state of one initializeSession run of the current
useVideoCall hook: the room and the local sender id of the membership, the
WebRTCService it owns, and the ordered list of messages it has published
through SupabaseService.storeSignal. -/
structure Session where
  roomId : String
  userId : String
  webrtc : WebRTCService
  outbox : List Signal
deriving DecidableEq

/-- SupabaseService.storeSignal as called from the hook: appends a message
tagged with the room and the local sender id. -/
def Session.storeSignal (sess : Session) (k : SignalKind) (d : SignalData) : Session :=
  { sess with outbox := sess.outbox ++ [⟨sess.roomId, sess.userId, k, d⟩] }

/-- The shared tail of the offer branch of the signal handler: createAnswer
(which sets the remote description internally) and publish the resulting
answer. A failure is caught by the handler and logged. -/
def Session.answerIncomingOffer (sess : Session) (d : SessionDesc) : Session :=
  match WebRTCService.createAnswer sess.webrtc d with
  | .error _ => sess
  | .ok (answer, svc) =>
      Session.storeSignal { sess with webrtc := svc } .answer (.desc answer)

/-- The live-subscription signal handler of initializeSession (current
useVideoCall): messages from the local sender id are discarded; an offer
received outside the stable state first rolls back the pending local offer
(polite peer) and, when the rollback fails, the handler returns; the offer
is then answered and the answer published; an answer is applied only in the
have-local-offer state and ignored with a warning otherwise; an ice message
is forwarded to addIceCandidate with its rejection caught and logged. Every
error is caught, so the handler never throws. -/
def Session.handleSignal (sess : Session) (signal : Signal) : Session :=
  if signal.sender_id = sess.userId then sess
  else
    match sess.webrtc.peerConnection with
    | none => sess
    | some pc =>
        match signal.signal_type, signal.signal_data with
        | .offer, .desc d =>
            if pc.signalingState ≠ .stable then
              match RTCPeerConnection.setLocalDescription pc ⟨.rollback, []⟩ with
              | .error _ => sess
              | .ok pc1 =>
                  Session.answerIncomingOffer
                    { sess with webrtc := { sess.webrtc with peerConnection := some pc1 } } d
            else Session.answerIncomingOffer sess d
        | .answer, .desc d =>
            if pc.signalingState ≠ .haveLocalOffer then sess
            else
              match WebRTCService.setRemoteDescription sess.webrtc d with
              | .error _ => sess
              | .ok svc => { sess with webrtc := svc }
        | .ice, .cand c =>
            match WebRTCService.addIceCandidate sess.webrtc c with
            | .error _ => sess
            | .ok svc => { sess with webrtc := svc }
        | _, _ => sess

/-- The for-of loop at the end of the answerer bootstrap branch: apply the
replayed remote candidates one by one; a rejection propagates out of
initializeSession. -/
def Session.applyRemoteIce : Session → List Signal → Except RTCError Session
  | sess, [] => .ok sess
  | sess, s :: rest =>
      match s.signal_data with
      | .cand c =>
          match WebRTCService.addIceCandidate sess.webrtc c with
          | .error e => .error e
          | .ok svc => Session.applyRemoteIce { sess with webrtc := svc } rest
      | .desc _ => .error .invalidState

/-- Step 4 of initializeSession: fetch the replay log and decide the role.
No offer in the log: create and publish one offer. An offer from another
sender: answer it, publish the answer, then apply the replayed ice
candidates of the other senders in log order. An offer from the local
sender: log and wait for the answer on the live subscription. Errors
propagate (initialization fails). -/
def Session.bootstrap (sess : Session) (signals : List Signal) : Except RTCError Session :=
  match signals.find? (fun s => s.signal_type == .offer) with
  | none =>
      match WebRTCService.createOffer sess.webrtc with
      | .error e => .error e
      | .ok (offer, svc) =>
          .ok (Session.storeSignal { sess with webrtc := svc } .offer (.desc offer))
  | some off =>
      if off.sender_id ≠ sess.userId then
        match off.signal_data with
        | .desc d =>
            match WebRTCService.createAnswer sess.webrtc d with
            | .error e => .error e
            | .ok (answer, svc) =>
                Session.applyRemoteIce
                  (Session.storeSignal { sess with webrtc := svc } .answer (.desc answer))
                  (signals.filter (fun s => s.signal_type == .ice && s.sender_id != sess.userId))
        | .cand _ => .error .invalidState
      else .ok sess

/-- shareScreen of the current useVideoCall hook: with a peer connection
present, replace the track of the existing video sender with the screen
track, or, when no video sender exists, add the screen track as a new
sender. In neither case is any message published. -/
def Session.shareScreen (sess : Session) (screenTrack : MediaTrack) : Session :=
  match sess.webrtc.peerConnection with
  | none => sess
  | some pc =>
      match pc.senders.find? (fun s => s.kind == "video") with
      | some _ =>
          { sess with
            webrtc := { sess.webrtc with
                        peerConnection :=
                          some { pc with senders := replaceFirstOfKind pc.senders "video" screenTrack } } }
      | none =>
          { sess with
            webrtc := { sess.webrtc with peerConnection := some (RTCPeerConnection.addTrack pc screenTrack) } }

/-- Delivery of a connectionstatechange event to the session: only the
handler installed by setupQualityMonitoring observes it; the hook has no
code path that publishes anything from this event. -/
def Session.onConnectionStateChange (sess : Session) (st : ConnectionState) : Session :=
  { sess with webrtc := WebRTCService.onConnectionStateChangeEvent sess.webrtc st }

/-- Steps 1 and 2 of initializeSession after getUserMedia succeeded: build a
fresh WebRTCService and bind the local stream to it. -/
def Session.init (roomId userId : String) (stream : MediaStream) : Except RTCError Session :=
  match WebRTCService.initialize WebRTCService.new stream with
  | .error e => .error e
  | .ok svc => .ok ⟨roomId, userId, svc, []⟩

/-- The front of initializeSession: acquire local media, then construct and
bind the negotiator. When getUserMedia throws, the error propagates and no
WebRTCService is ever constructed. -/
def initializeSessionStart (env : MediaDevicesEnv) (roomId userId : String) :
    Except String Session :=
  match (MediaService.getUserMedia env).1 with
  | .error msg => .error msg
  | .ok stream =>
      match Session.init roomId userId stream with
      | .error _ => .error "Initialization error"
      | .ok sess => .ok sess

/-- The mutating operations a membership can experience, for stating
whole-run invariants: the bootstrap createOffer+publish step, delivery of a
remote signal, a connectivity event, a screen share, and close. -/
inductive NegotiationOp
  | createOffer
  | remoteSignal (s : Signal)
  | connEvent (st : ConnectionState)
  | shareScreen (t : MediaTrack)
  | close

/-- One step of the membership under an operation, as the hook performs
it (createOffer publishes its offer on success, as in the bootstrap). -/
def Session.applyOp (sess : Session) : NegotiationOp → Session
  | .createOffer =>
      match WebRTCService.createOffer sess.webrtc with
      | .error _ => sess
      | .ok (offer, svc) => Session.storeSignal { sess with webrtc := svc } .offer (.desc offer)
  | .remoteSignal s => Session.handleSignal sess s
  | .connEvent st => Session.onConnectionStateChange sess st
  | .shareScreen t => Session.shareScreen sess t
  | .close => { sess with webrtc := (WebRTCService.close sess.webrtc).1 }

/-- The number of outstanding (committed, unanswered) local offers of the
membership: one exactly when the signaling state is have-local-offer. -/
def Session.outstandingLocalOffers (sess : Session) : Nat :=
  match sess.webrtc.peerConnection with
  | none => 0
  | some pc => if pc.signalingState = .haveLocalOffer then 1 else 0

/-- The candidates applied so far on the peer connection of a session. -/
def Session.appliedCandidates (sess : Session) : List IceCandidate :=
  match sess.webrtc.peerConnection with
  | none => []
  | some pc => pc.appliedCandidates

/-- Offer messages in a published-message list. -/
def countOffers (l : List Signal) : Nat :=
  (l.filter (fun s => s.signal_type == .offer)).length

/-- Answer messages in a published-message list. -/
def countAnswers (l : List Signal) : Nat :=
  (l.filter (fun s => s.signal_type == .answer)).length

/-- Boolean success test for an Except value. -/
def exceptIsOk : Except ε α → Bool
  | .ok _ => true
  | .error _ => false

/-- The tracks currently held by the senders of a session. -/
def Session.senderTracks (sess : Session) : List MediaTrack :=
  match sess.webrtc.peerConnection with
  | none => []
  | some pc => pc.senders

/- Concrete fixtures used by witnesses and counterexamples. -/

/-- A camera microphone track. -/
def demoAudioTrack : MediaTrack := ⟨0, "audio", true, false⟩

/-- A camera video track. -/
def demoVideoTrack : MediaTrack := ⟨1, "video", true, false⟩

/-- A screen-capture video track. -/
def demoScreenTrack : MediaTrack := ⟨2, "video", true, false⟩

/-- A local camera stream with one audio and one video track. -/
def demoStream : MediaStream := ⟨[demoAudioTrack, demoVideoTrack]⟩

/-- An audio-only local stream (the camera-in-use fallback). -/
def demoAudioStream : MediaStream := ⟨[demoAudioTrack]⟩

/-- A remote candidate. -/
def demoCand : IceCandidate := ⟨"c1"⟩

/-- A second remote candidate. -/
def demoCand2 : IceCandidate := ⟨"c2"⟩

/-- A remote offer description. -/
def demoRemoteOffer : SessionDesc := ⟨.offer, ["ro"]⟩

/-- A remote answer description. -/
def demoRemoteAnswer : SessionDesc := ⟨.answer, ["ra"]⟩

/-- Peer A freshly joined room r1: media bound, nothing published yet. -/
def demoSession : Session :=
  match Session.init "r1" "A" demoStream with
  | .ok s => s
  | .error _ => ⟨"r1", "A", WebRTCService.new, []⟩

/-- The peer connection of the fresh session. -/
def demoFreshPC : RTCPeerConnection :=
  match demoSession.webrtc.peerConnection with
  | some pc => pc
  | none => RTCPeerConnection.new

/-- Peer A after the bootstrap created and published its offer. -/
def demoSessionOffered : Session := Session.applyOp demoSession .createOffer

/-- The peer connection of the offered session (have-local-offer). -/
def demoOfferedPC : RTCPeerConnection :=
  match demoSessionOffered.webrtc.peerConnection with
  | some pc => pc
  | none => RTCPeerConnection.new

/-- Peer A joined with an audio-only stream (no video sender). -/
def demoAudioSession : Session :=
  match Session.init "r1" "A" demoAudioStream with
  | .ok s => s
  | .error _ => ⟨"r1", "A", WebRTCService.new, []⟩

/-- An ice message from peer B. -/
def iceMsgB : Signal := ⟨"r1", "B", .ice, .cand demoCand⟩

/-- A second ice message from peer B. -/
def iceMsgB2 : Signal := ⟨"r1", "B", .ice, .cand demoCand2⟩

/-- An offer message from peer B. -/
def offerMsgB : Signal := ⟨"r1", "B", .offer, .desc demoRemoteOffer⟩

/-- A replay log holding an offer and two candidates from peer B. -/
def demoSignals : List Signal := [offerMsgB, iceMsgB, iceMsgB2]

/- Helper lemmas shared by the claim theorems. -/

/-- A filtered list is nonempty exactly when some element satisfies the
predicate. -/
theorem length_filter_pos_iff {α : Type} (p : α → Bool) (l : List α) :
    0 < (l.filter p).length ↔ ∃ t ∈ l, p t = true := by
  induction l with
  | nil => simp
  | cons a l ih => by_cases h : p a = true <;> simp [List.filter_cons, h, ih]

/-- C10: toggleAudio and toggleVideo set the enabled flag of every track of
their kind to the requested value and return true exactly when the stream
has at least one track of that kind and the requested value is true; in
particular disabling always returns false, even when tracks exist and were
modified. -/
theorem toggle_sets_tracks_and_result (stream : MediaStream) (enabled : Bool) :
    ((MediaService.toggleAudio stream enabled).2 = true ↔
      ((∃ t ∈ stream.tracks, t.kind = "audio") ∧ enabled = true)) ∧
    ((MediaService.toggleVideo stream enabled).2 = true ↔
      ((∃ t ∈ stream.tracks, t.kind = "video") ∧ enabled = true)) ∧
    ((MediaService.toggleAudio stream enabled).1.tracks.all
        (fun t => !(t.kind == "audio") || (t.enabled == enabled)) = true) ∧
    ((MediaService.toggleVideo stream enabled).1.tracks.all
        (fun t => !(t.kind == "video") || (t.enabled == enabled)) = true) ∧
    (MediaService.toggleAudio stream false).2 = false ∧
    (MediaService.toggleVideo stream false).2 = false := by
  refine ⟨?_, ?_, ?_, ?_, ?_, ?_⟩
  · simp [MediaService.toggleAudio, MediaStream.getAudioTracks,
      length_filter_pos_iff]
  · simp [MediaService.toggleVideo, MediaStream.getVideoTracks,
      length_filter_pos_iff]
  · simp only [MediaService.toggleAudio, List.all_eq_true, List.mem_map]
    rintro t ⟨t0, _, rfl⟩
    by_cases h : t0.kind == "audio" <;> simp [h]
  · simp only [MediaService.toggleVideo, List.all_eq_true, List.mem_map]
    rintro t ⟨t0, _, rfl⟩
    by_cases h : t0.kind == "video" <;> simp [h]
  · simp [MediaService.toggleAudio]
  · simp [MediaService.toggleVideo]

/-- C8: close is idempotent and safe from every state: it never throws (it
is a total operation), a second call is a no-op, a restart resuming after
close is a no-op thanks to the null guard, and every track of the local
stream that was bound is stopped. -/
theorem close_idempotent_and_stops_tracks (svc : WebRTCService) :
    (WebRTCService.close svc).1.peerConnection = none ∧
    (WebRTCService.close svc).1.localStream = none ∧
    WebRTCService.close (WebRTCService.close svc).1 = ((WebRTCService.close svc).1, none) ∧
    (match (WebRTCService.close svc).2 with
     | none => svc.localStream = none
     | some st => MediaStream.allStopped st = true) ∧
    WebRTCService.restartIce (WebRTCService.close svc).1 = (WebRTCService.close svc).1 := by
  refine ⟨rfl, rfl, rfl, ?_, rfl⟩
  cases h : svc.localStream with
  | none => simp [WebRTCService.close, h]
  | some st =>
      simp [WebRTCService.close, h, MediaStream.allStopped]

/-- C1: a remote offer arriving while the local signaling state is
have-local-offer (glare) makes the handler roll back the uncommitted local
offer, set the remote description from the incoming offer, generate an
answer, commit it locally (ending in stable) and publish exactly that
answer; the handler returns normally, surfacing no error. -/
theorem glare_rollback_answers_and_publishes
    (sess : Session) (pc : RTCPeerConnection) (d : SessionDesc) (sender : String)
    (hpc : sess.webrtc.peerConnection = some pc)
    (hst : pc.signalingState = SignalingState.haveLocalOffer)
    (hsender : sender ≠ sess.userId)
    (hty : d.ty = SdpType.offer) :
    ∃ answer pc1,
      answer.ty = SdpType.answer ∧
      (Session.handleSignal sess ⟨sess.roomId, sender, .offer, .desc d⟩).webrtc.peerConnection
        = some pc1 ∧
      pc1.signalingState = SignalingState.stable ∧
      pc1.remoteDescription = some d ∧
      pc1.localDescription = some answer ∧
      (Session.handleSignal sess ⟨sess.roomId, sender, .offer, .desc d⟩).outbox
        = sess.outbox ++ [⟨sess.roomId, sess.userId, .answer, .desc answer⟩] := by
  obtain ⟨ty, lines⟩ := d
  cases hty
  simp only [Session.handleSignal, hpc, if_neg hsender, hst,
    RTCPeerConnection.setLocalDescription, Session.answerIncomingOffer,
    WebRTCService.createAnswer, RTCPeerConnection.setRemoteDescription,
    RTCPeerConnection.createAnswerPrim, Session.storeSignal]
  exact ⟨_, _, rfl, rfl, rfl, rfl, rfl, rfl⟩

/-- C1 witness: peer A holding its own published offer receives an offer
from B; the glare is resolved by rollback and exactly one answer is
published. -/
theorem glare_rollback_witness :
    demoOfferedPC.signalingState = SignalingState.haveLocalOffer ∧
    (∃ answer pc1,
      answer.ty = SdpType.answer ∧
      (Session.handleSignal demoSessionOffered
          ⟨demoSessionOffered.roomId, "B", .offer, .desc demoRemoteOffer⟩).webrtc.peerConnection
        = some pc1 ∧
      pc1.signalingState = SignalingState.stable ∧
      pc1.remoteDescription = some demoRemoteOffer ∧
      pc1.localDescription = some answer ∧
      (Session.handleSignal demoSessionOffered
          ⟨demoSessionOffered.roomId, "B", .offer, .desc demoRemoteOffer⟩).outbox
        = demoSessionOffered.outbox
          ++ [⟨demoSessionOffered.roomId, demoSessionOffered.userId, .answer, .desc answer⟩]) :=
  ⟨rfl, glare_rollback_answers_and_publishes demoSessionOffered demoOfferedPC demoRemoteOffer
    "B" rfl rfl (by decide) rfl⟩

/-- C2: a remote answer delivered while the local signaling state is not
have-local-offer is ignored: the handler logs a warning and returns with
the session state unchanged, never treating the stale message as fatal. -/
theorem stale_answer_ignored
    (sess : Session) (pc : RTCPeerConnection) (d : SessionDesc) (sender : String)
    (hpc : sess.webrtc.peerConnection = some pc)
    (hst : pc.signalingState ≠ SignalingState.haveLocalOffer) :
    Session.handleSignal sess ⟨sess.roomId, sender, .answer, .desc d⟩ = sess := by
  by_cases hsender : sender = sess.userId
  · simp [Session.handleSignal, hsender]
  · simp [Session.handleSignal, hpc, hsender, hst]

/-- C2 witness: a stale answer arriving in the stable state (no outstanding
offer) leaves the fresh session untouched. -/
theorem stale_answer_witness :
    demoFreshPC.signalingState ≠ SignalingState.haveLocalOffer ∧
    Session.handleSignal demoSession ⟨demoSession.roomId, "B", .answer, .desc demoRemoteAnswer⟩
      = demoSession :=
  ⟨by decide,
   stale_answer_ignored demoSession demoFreshPC demoRemoteAnswer "B" rfl (by decide)⟩

/-- Processing one live ice message once a remote description exists
appends the candidate to the applied list and changes nothing else. -/
theorem handle_ice_step
    (sess : Session) (pc : RTCPeerConnection) (c : IceCandidate) (sender room : String)
    (hpc : sess.webrtc.peerConnection = some pc)
    (hsender : sender ≠ sess.userId)
    (hnc : pc.signalingState ≠ SignalingState.closed)
    (hrd : pc.remoteDescription.isSome = true) :
    Session.handleSignal sess ⟨room, sender, .ice, .cand c⟩ =
      { sess with
        webrtc := { sess.webrtc with
                    peerConnection :=
                      some { pc with appliedCandidates := pc.appliedCandidates ++ [c] } } } := by
  obtain ⟨rd, hrd2⟩ : ∃ rd, pc.remoteDescription = some rd :=
    Option.isSome_iff_exists.mp hrd
  simp [Session.handleSignal, hpc, hsender, WebRTCService.addIceCandidate,
    RTCPeerConnection.addIceCandidatePrim, hnc, hrd2]

/-- Folding a list of live ice messages over the handler once a remote
description exists applies all candidates in delivery order. -/
theorem handle_ice_fold (sender room : String) (cs : List IceCandidate) :
    ∀ (sess : Session) (pc : RTCPeerConnection),
      sess.webrtc.peerConnection = some pc →
      sender ≠ sess.userId →
      pc.signalingState ≠ SignalingState.closed →
      pc.remoteDescription.isSome = true →
      ∃ pc1,
        ((cs.map (fun c0 => (⟨room, sender, .ice, .cand c0⟩ : Signal))).foldl
            Session.handleSignal sess).webrtc.peerConnection = some pc1 ∧
        pc1.appliedCandidates = pc.appliedCandidates ++ cs ∧
        pc1.signalingState = pc.signalingState ∧
        pc1.remoteDescription = pc.remoteDescription ∧
        ((cs.map (fun c0 => (⟨room, sender, .ice, .cand c0⟩ : Signal))).foldl
            Session.handleSignal sess).outbox = sess.outbox := by
  induction cs with
  | nil =>
      intro sess pc hpc _ _ _
      exact ⟨pc, hpc, by simp, rfl, rfl, rfl⟩
  | cons c cs ih =>
      intro sess pc hpc hsender hnc hrd
      rw [List.map_cons, List.foldl_cons,
        handle_ice_step sess pc c sender room hpc hsender hnc hrd]
      obtain ⟨pc1, h1, h2, h3, h4, h5⟩ :=
        ih { sess with
              webrtc := { sess.webrtc with
                          peerConnection :=
                            some { pc with appliedCandidates := pc.appliedCandidates ++ [c] } } }
          { pc with appliedCandidates := pc.appliedCandidates ++ [c] }
          rfl hsender hnc hrd
      exact ⟨pc1, h1, by simpa using h2, h3, h4, h5⟩

/-- C3 counterexample: on the fresh session (no remote description) an
incoming candidate is dropped, not queued; when the remote offer later
arrives and the remote description is applied, the applied-candidate list
is still empty, so the earlier candidate was never applied. -/
theorem candidate_not_queued_cex :
    Session.handleSignal demoSession iceMsgB = demoSession ∧
    Session.appliedCandidates
        (Session.handleSignal (Session.handleSignal demoSession iceMsgB) offerMsgB) = [] ∧
    demoCand ∉ Session.appliedCandidates
        (Session.handleSignal (Session.handleSignal demoSession iceMsgB) offerMsgB) :=
  ⟨by decide, by decide, by decide⟩

/-- C3 amended: a candidate delivered before any remote description does not
propagate an error (the rejection is caught and logged by the handler) but
it is dropped rather than queued; candidates delivered after a remote
description is set are applied immediately, in delivery order, with none
dropped. -/
theorem ice_dropped_before_remote_desc_applied_in_order_after
    (sess : Session) (pc : RTCPeerConnection) (c : IceCandidate) (sender : String)
    (hpc : sess.webrtc.peerConnection = some pc)
    (hsender : sender ≠ sess.userId)
    (hnc : pc.signalingState ≠ SignalingState.closed) :
    (pc.remoteDescription = none →
      Session.handleSignal sess ⟨sess.roomId, sender, .ice, .cand c⟩ = sess) ∧
    (pc.remoteDescription.isSome = true →
      Session.appliedCandidates (Session.handleSignal sess ⟨sess.roomId, sender, .ice, .cand c⟩)
        = pc.appliedCandidates ++ [c]) ∧
    (pc.remoteDescription.isSome = true → ∀ cs : List IceCandidate,
      Session.appliedCandidates
          ((cs.map (fun c0 => (⟨sess.roomId, sender, .ice, .cand c0⟩ : Signal))).foldl
            Session.handleSignal sess)
        = pc.appliedCandidates ++ cs) := by
  refine ⟨?_, ?_, ?_⟩
  · intro hrd
    simp [Session.handleSignal, hpc, hsender, WebRTCService.addIceCandidate,
      RTCPeerConnection.addIceCandidatePrim, hnc, hrd]
  · intro hrd
    rw [handle_ice_step sess pc c sender sess.roomId hpc hsender hnc hrd]
    simp [Session.appliedCandidates]
  · intro hrd cs
    obtain ⟨pc1, h1, h2, _, _, _⟩ :=
      handle_ice_fold sender sess.roomId cs sess pc hpc hsender hnc hrd
    simp [Session.appliedCandidates, h1, h2]

/-- Peer A after answering the offer of peer B: remote description set,
signaling state stable again. -/
def demoAnsweredSession : Session := Session.handleSignal demoSession offerMsgB

/-- The peer connection of the answered session. -/
def demoAnsweredPC : RTCPeerConnection :=
  match demoAnsweredSession.webrtc.peerConnection with
  | some pc => pc
  | none => RTCPeerConnection.new

/-- C3 amended witness: on the answered session the two candidates of peer
B are applied in delivery order. -/
theorem ice_handling_witness :
    demoAnsweredPC.remoteDescription.isSome = true ∧
    ((demoAnsweredPC.remoteDescription = none →
      Session.handleSignal demoAnsweredSession
          ⟨demoAnsweredSession.roomId, "B", .ice, .cand demoCand⟩ = demoAnsweredSession) ∧
    (demoAnsweredPC.remoteDescription.isSome = true →
      Session.appliedCandidates
          (Session.handleSignal demoAnsweredSession
            ⟨demoAnsweredSession.roomId, "B", .ice, .cand demoCand⟩)
        = demoAnsweredPC.appliedCandidates ++ [demoCand]) ∧
    (demoAnsweredPC.remoteDescription.isSome = true → ∀ cs : List IceCandidate,
      Session.appliedCandidates
          ((cs.map (fun c0 => (⟨demoAnsweredSession.roomId, "B", .ice, .cand c0⟩ : Signal))).foldl
            Session.handleSignal demoAnsweredSession)
        = demoAnsweredPC.appliedCandidates ++ cs)) :=
  ⟨by decide,
   ice_dropped_before_remote_desc_applied_in_order_after demoAnsweredSession demoAnsweredPC
     demoCand "B" rfl (by decide) (by decide)⟩

/-- createAnswer called in the stable state on an offer succeeds and leaves
the connection stable with the offer as remote description and the fresh
answer committed locally; senders and applied candidates are untouched. -/
theorem createAnswer_from_stable (svc : WebRTCService) (pc : RTCPeerConnection) (d : SessionDesc)
    (hpc : svc.peerConnection = some pc) (hst : pc.signalingState = SignalingState.stable)
    (hd : d.ty = SdpType.offer) :
    ∃ answer pc1,
      WebRTCService.createAnswer svc d = .ok (answer, { svc with peerConnection := some pc1 }) ∧
      answer.ty = SdpType.answer ∧
      pc1.signalingState = SignalingState.stable ∧
      pc1.remoteDescription = some d ∧
      pc1.localDescription = some answer ∧
      pc1.appliedCandidates = pc.appliedCandidates ∧
      pc1.senders = pc.senders := by
  obtain ⟨ty, lines⟩ := d
  cases hd
  simp only [WebRTCService.createAnswer, hpc, RTCPeerConnection.setRemoteDescription, hst,
    RTCPeerConnection.createAnswerPrim, RTCPeerConnection.setLocalDescription]
  exact ⟨_, _, rfl, rfl, rfl, rfl, rfl, rfl, rfl⟩

/-- The replayed-candidate loop of the answerer bootstrap branch succeeds on
a connection that holds a remote description, applying all candidates in
log order and publishing nothing. -/
theorem applyRemoteIce_ok (l : List Signal) :
    ∀ (sess : Session) (pc : RTCPeerConnection),
      sess.webrtc.peerConnection = some pc →
      pc.signalingState ≠ SignalingState.closed →
      pc.remoteDescription.isSome = true →
      l.all (fun s => match s.signal_data with | .cand _ => true | .desc _ => false) = true →
      ∃ sess1 pc1, Session.applyRemoteIce sess l = .ok sess1 ∧
        sess1.webrtc.peerConnection = some pc1 ∧
        pc1.appliedCandidates = pc.appliedCandidates
          ++ l.filterMap (fun s => match s.signal_data with | .cand c => some c | .desc _ => none) ∧
        pc1.signalingState = pc.signalingState ∧
        pc1.remoteDescription = pc.remoteDescription ∧
        sess1.outbox = sess.outbox := by
  induction l with
  | nil =>
      intro sess pc hpc _ _ _
      exact ⟨sess, pc, rfl, hpc, by simp [Session.applyRemoteIce], rfl, rfl, rfl⟩
  | cons s l ih =>
      intro sess pc hpc hnc hrd hall
      cases hsd : s.signal_data with
      | desc d =>
          rw [List.all_cons, hsd] at hall
          simp at hall
      | cand c =>
          have hall2 : l.all
              (fun s => match s.signal_data with | .cand _ => true | .desc _ => false) = true := by
            rw [List.all_cons, hsd] at hall
            simpa using hall
          obtain ⟨rd, hrd2⟩ : ∃ rd, pc.remoteDescription = some rd :=
            Option.isSome_iff_exists.mp hrd
          have hstep : Session.applyRemoteIce sess (s :: l) =
              Session.applyRemoteIce
                { sess with
                  webrtc := { sess.webrtc with
                              peerConnection :=
                                some { pc with
                                        appliedCandidates := pc.appliedCandidates ++ [c] } } } l := by
            simp [Session.applyRemoteIce, hsd, WebRTCService.addIceCandidate,
              RTCPeerConnection.addIceCandidatePrim, hpc, hnc, hrd2]
          rw [hstep]
          obtain ⟨sess1, pc1, h1, h2, h3, h4, h5, h6⟩ :=
            ih { sess with
                  webrtc := { sess.webrtc with
                              peerConnection :=
                                some { pc with
                                        appliedCandidates := pc.appliedCandidates ++ [c] } } }
              { pc with appliedCandidates := pc.appliedCandidates ++ [c] }
              rfl hnc hrd hall2
          exact ⟨sess1, pc1, h1, h2, by simpa [hsd] using h3, h4, h5, h6⟩

/-- C4: the join-time bootstrap after fetching the replay log: with no offer
in the log the peer creates and publishes exactly one offer tagged with its
own sender id; with an offer from a different sender it answers it,
publishes exactly one answer tagged with its own sender id, then applies
the already-published candidates of the other senders in log order; with an
offer from itself it publishes nothing and waits for the answer on the live
subscription. -/
theorem bootstrap_role_cases
    (sess : Session) (pc : RTCPeerConnection) (signals : List Signal)
    (hpc : sess.webrtc.peerConnection = some pc)
    (hst : pc.signalingState = SignalingState.stable)
    (hwf : signals.all wellFormedSignal = true) :
    (signals.find? (fun s => s.signal_type == SignalKind.offer) = none →
      ∃ offer sess1, Session.bootstrap sess signals = .ok sess1 ∧
        offer.ty = SdpType.offer ∧
        sess1.outbox = sess.outbox ++ [⟨sess.roomId, sess.userId, .offer, .desc offer⟩]) ∧
    (∀ off, signals.find? (fun s => s.signal_type == SignalKind.offer) = some off →
      off.sender_id ≠ sess.userId →
      ∃ answer sess1, Session.bootstrap sess signals = .ok sess1 ∧
        answer.ty = SdpType.answer ∧
        sess1.outbox = sess.outbox ++ [⟨sess.roomId, sess.userId, .answer, .desc answer⟩] ∧
        Session.appliedCandidates sess1 = pc.appliedCandidates ++
          (signals.filter
              (fun s => s.signal_type == SignalKind.ice && s.sender_id != sess.userId)).filterMap
            (fun s => match s.signal_data with | .cand c => some c | .desc _ => none)) ∧
    (∀ off, signals.find? (fun s => s.signal_type == SignalKind.offer) = some off →
      off.sender_id = sess.userId →
      Session.bootstrap sess signals = .ok sess) := by
  refine ⟨?_, ?_, ?_⟩
  · intro hfind
    simp only [Session.bootstrap, hfind, WebRTCService.createOffer, hpc,
      RTCPeerConnection.createOfferPrim, hst, WebRTCService.optimizeSDP,
      RTCPeerConnection.setLocalDescription, Session.storeSignal]
    exact ⟨_, _, rfl, rfl, rfl⟩
  · intro off hfind hsender
    have hmem : off ∈ signals := List.mem_of_find?_eq_some hfind
    have hofftype : off.signal_type = SignalKind.offer := by
      have h := List.find?_some hfind
      simpa using h
    have hwfoff : wellFormedSignal off = true := (List.all_eq_true.mp hwf) off hmem
    cases hsd : off.signal_data with
    | cand c =>
        simp [wellFormedSignal, hofftype, hsd] at hwfoff
    | desc d =>
        have hdty : d.ty = SdpType.offer := by
          simpa [wellFormedSignal, hofftype, hsd] using hwfoff
        obtain ⟨answer, pc1, hca, hansty, hstb, hrdb, _, happ, _⟩ :=
          createAnswer_from_stable sess.webrtc pc d hpc hst hdty
        have hboot : Session.bootstrap sess signals =
            Session.applyRemoteIce
              (Session.storeSignal
                { sess with webrtc := { sess.webrtc with peerConnection := some pc1 } }
                .answer (.desc answer))
              (signals.filter
                (fun s => s.signal_type == SignalKind.ice && s.sender_id != sess.userId)) := by
          simp [Session.bootstrap, hfind, hsender, hsd, hca]
        have hallcand : (signals.filter
            (fun s => s.signal_type == SignalKind.ice && s.sender_id != sess.userId)).all
            (fun s => match s.signal_data with | .cand _ => true | .desc _ => false) = true := by
          rw [List.all_eq_true]
          intro s hs
          have hmems : s ∈ signals := (List.mem_filter.mp hs).1
          have hpred := (List.mem_filter.mp hs).2
          have hice : s.signal_type = SignalKind.ice := by
            simp only [Bool.and_eq_true, beq_iff_eq] at hpred
            exact hpred.1
          have hwfs : wellFormedSignal s = true := (List.all_eq_true.mp hwf) s hmems
          cases hsd2 : s.signal_data with
          | cand c2 => simp
          | desc d2 => simp [wellFormedSignal, hice, hsd2] at hwfs
        obtain ⟨sess1, pc2, h1, h2, h3, _, _, h6⟩ :=
          applyRemoteIce_ok
            (signals.filter (fun s => s.signal_type == SignalKind.ice && s.sender_id != sess.userId))
            (Session.storeSignal
              { sess with webrtc := { sess.webrtc with peerConnection := some pc1 } }
              .answer (.desc answer))
            pc1 rfl (by rw [hstb]; exact fun h => by cases h) (by rw [hrdb]; rfl) hallcand
        refine ⟨answer, sess1, ?_, hansty, ?_, ?_⟩
        · rw [hboot, h1]
        · rw [h6]
          rfl
        · simp only [Session.appliedCandidates, h2, h3, happ]
  · intro off hfind hsame
    simp [Session.bootstrap, hfind, hsame]

/-- C4 witness: peer A joining a room whose log holds an offer and two
candidates from peer B publishes exactly one answer and applies both of the
candidates of B in log order. -/
theorem bootstrap_witness :
    demoSignals.all wellFormedSignal = true ∧
    (∃ answer sess1, Session.bootstrap demoSession demoSignals = .ok sess1 ∧
      answer.ty = SdpType.answer ∧
      sess1.outbox = demoSession.outbox
        ++ [⟨demoSession.roomId, demoSession.userId, .answer, .desc answer⟩] ∧
      Session.appliedCandidates sess1 = demoFreshPC.appliedCandidates ++
        (demoSignals.filter
            (fun s => s.signal_type == SignalKind.ice && s.sender_id != demoSession.userId)).filterMap
          (fun s => match s.signal_data with | .cand c => some c | .desc _ => none)) :=
  ⟨by decide,
   (bootstrap_role_cases demoSession demoFreshPC demoSignals rfl rfl (by decide)).2.1
     offerMsgB (by decide) (by decide)⟩

/-- A session never holds more than one outstanding local offer: the
connection stores a single pending local description. -/
theorem outstanding_le_one (sess : Session) : Session.outstandingLocalOffers sess ≤ 1 := by
  unfold Session.outstandingLocalOffers
  split
  · exact Nat.zero_le 1
  · split
    · exact Nat.le_refl 1
    · exact Nat.zero_le 1

/-- C5 counterexample: with an offer already outstanding (signaling state
have-local-offer after the bootstrap offer) a second createOffer does not
fail: it succeeds, so the claim that it throws is false on this input. -/
theorem second_createOffer_succeeds_cex :
    demoOfferedPC.signalingState = SignalingState.haveLocalOffer ∧
    exceptIsOk (WebRTCService.createOffer demoSessionOffered.webrtc) = true ∧
    Session.outstandingLocalOffers demoSessionOffered = 1 :=
  ⟨by decide, by decide, by decide⟩

/-- C5 amended: at most one local offer is outstanding at any time over any
sequence of operations, but a second createOffer while one is outstanding
does not fail: createOffer has no stable-state guard, so it succeeds and
re-commits a fresh offer, replacing the pending one and leaving the state
consistent (still have-local-offer, holding exactly the new offer). -/
theorem createOffer_reoffer_keeps_single_offer
    (svc : WebRTCService) (pc : RTCPeerConnection)
    (hpc : svc.peerConnection = some pc)
    (hst : pc.signalingState = SignalingState.haveLocalOffer) :
    (∃ offer svc1 pc1, WebRTCService.createOffer svc = .ok (offer, svc1) ∧
      svc1.peerConnection = some pc1 ∧ offer.ty = SdpType.offer ∧
      pc1.signalingState = SignalingState.haveLocalOffer ∧
      pc1.localDescription = some offer) ∧
    (∀ (ops : List NegotiationOp) (sess0 : Session),
      Session.outstandingLocalOffers (ops.foldl Session.applyOp sess0) ≤ 1) := by
  constructor
  · simp only [WebRTCService.createOffer, hpc, RTCPeerConnection.createOfferPrim, hst,
      WebRTCService.optimizeSDP, RTCPeerConnection.setLocalDescription]
    exact ⟨_, _, _, rfl, rfl, rfl, rfl, rfl⟩
  · intro ops sess0
    exact outstanding_le_one _

/-- C5 amended witness: the session holding its bootstrap offer accepts a
second createOffer, which replaces the pending offer. -/
theorem createOffer_reoffer_witness :
    demoOfferedPC.signalingState = SignalingState.haveLocalOffer ∧
    ((∃ offer svc1 pc1,
        WebRTCService.createOffer demoSessionOffered.webrtc = .ok (offer, svc1) ∧
        svc1.peerConnection = some pc1 ∧ offer.ty = SdpType.offer ∧
        pc1.signalingState = SignalingState.haveLocalOffer ∧
        pc1.localDescription = some offer) ∧
     (∀ (ops : List NegotiationOp) (sess0 : Session),
        Session.outstandingLocalOffers (ops.foldl Session.applyOp sess0) ≤ 1)) :=
  ⟨rfl, createOffer_reoffer_keeps_single_offer demoSessionOffered.webrtc demoOfferedPC rfl rfl⟩

/-- C6 counterexample: on a transition to the failed connectivity state no
restart offer is published to the signal channel: the outbox is unchanged,
still holding only the single bootstrap offer rather than one more. -/
theorem restart_offer_not_published_cex :
    (Session.onConnectionStateChange demoSessionOffered .failed).outbox
      = demoSessionOffered.outbox ∧
    countOffers demoSessionOffered.outbox = 1 ∧
    countOffers (Session.onConnectionStateChange demoSessionOffered .failed).outbox = 1 :=
  ⟨rfl, by decide, by decide⟩

/-- C6 amended: each failed transition triggers exactly one restartIce call,
which creates and commits one fresh restart offer locally and never
publishes it to the signal channel; a second consecutive failed transition
behaves the same (one more local restart, still nothing published, not an
unbounded stream), and the session keeps the connection open rather than
terminating. -/
theorem failed_restart_local_only
    (sess : Session) (pc : RTCPeerConnection)
    (hpc : sess.webrtc.peerConnection = some pc)
    (hst : pc.signalingState = SignalingState.stable ∨
           pc.signalingState = SignalingState.haveLocalOffer) :
    (∀ st, (Session.onConnectionStateChange sess st).outbox = sess.outbox) ∧
    (∃ pc1 offer,
      (Session.onConnectionStateChange sess .failed).webrtc.peerConnection = some pc1 ∧
      offer.ty = SdpType.offer ∧
      pc1.localDescription = some offer ∧
      pc1.signalingState = SignalingState.haveLocalOffer) ∧
    (Session.onConnectionStateChange (Session.onConnectionStateChange sess .failed) .failed).outbox
      = sess.outbox := by
  refine ⟨fun st => rfl, ?_, rfl⟩
  rcases hst with h | h <;>
    simp only [Session.onConnectionStateChange, WebRTCService.onConnectionStateChangeEvent,
      WebRTCService.restartIce, hpc, RTCPeerConnection.createOfferPrim, h,
      RTCPeerConnection.setLocalDescription, reduceIte] <;>
    exact ⟨_, _, rfl, rfl, rfl, rfl⟩

/-- C6 amended witness: the offered session under a failed transition keeps
its outbox and commits a local restart offer. -/
theorem failed_restart_witness :
    demoOfferedPC.signalingState = SignalingState.haveLocalOffer ∧
    ((∀ st, (Session.onConnectionStateChange demoSessionOffered st).outbox
        = demoSessionOffered.outbox) ∧
     (∃ pc1 offer,
        (Session.onConnectionStateChange demoSessionOffered .failed).webrtc.peerConnection
          = some pc1 ∧
        offer.ty = SdpType.offer ∧
        pc1.localDescription = some offer ∧
        pc1.signalingState = SignalingState.haveLocalOffer) ∧
     (Session.onConnectionStateChange
        (Session.onConnectionStateChange demoSessionOffered .failed) .failed).outbox
       = demoSessionOffered.outbox) :=
  ⟨rfl, failed_restart_local_only demoSessionOffered demoOfferedPC rfl (Or.inr rfl)⟩

/-- C7 counterexample: with no existing video sender the screen track is
added as a new sender, yet no renegotiation cycle follows: no offer message
is published at all, against the claim that the addition triggers a fresh
published offer. -/
theorem share_screen_adds_sender_without_offer_cex :
    Session.senderTracks demoAudioSession = [demoAudioTrack] ∧
    Session.senderTracks (Session.shareScreen demoAudioSession demoScreenTrack)
      = [demoAudioTrack, demoScreenTrack] ∧
    (Session.shareScreen demoAudioSession demoScreenTrack).outbox = demoAudioSession.outbox ∧
    countOffers (Session.shareScreen demoAudioSession demoScreenTrack).outbox = 0 :=
  ⟨by decide, by decide, by decide, by decide⟩

/-- C7 amended: replacing the outbound track publishes nothing in any case.
With an existing sender of the kind the track is swapped in place and the
signaling state and descriptions are untouched (no renegotiation); with no
existing video sender, shareScreen adds the screen track as a new sender
but never starts a renegotiation cycle, and MediaService.replaceTrack does
not even add a sender: it resolves leaving the connection unchanged. -/
theorem replace_track_no_renegotiation
    (sess : Session) (pc : RTCPeerConnection) (t : MediaTrack) (newStream : MediaStream)
    (hpc : sess.webrtc.peerConnection = some pc) :
    (Session.shareScreen sess t).outbox = sess.outbox ∧
    ((pc.senders.find? (fun s => s.kind == "video")).isSome = true →
      ∃ pc1, (Session.shareScreen sess t).webrtc.peerConnection = some pc1 ∧
        pc1.senders = replaceFirstOfKind pc.senders "video" t ∧
        pc1.signalingState = pc.signalingState ∧
        pc1.localDescription = pc.localDescription ∧
        pc1.remoteDescription = pc.remoteDescription) ∧
    (pc.senders.find? (fun s => s.kind == "video") = none →
      ∃ pc1, (Session.shareScreen sess t).webrtc.peerConnection = some pc1 ∧
        pc1.senders = pc.senders ++ [t] ∧
        pc1.signalingState = pc.signalingState) ∧
    (pc.senders.find? (fun s => s.kind == "video") = none →
      (MediaStream.getVideoTracks newStream).head?.isSome = true →
      MediaService.replaceTrack pc newStream "video" = .ok pc) := by
  refine ⟨?_, ?_, ?_, ?_⟩
  · simp only [Session.shareScreen, hpc]
    cases h : pc.senders.find? (fun s => s.kind == "video") <;> simp
  · intro hf
    obtain ⟨s0, hs0⟩ := Option.isSome_iff_exists.mp hf
    simp only [Session.shareScreen, hpc, hs0]
    exact ⟨_, rfl, rfl, rfl, rfl, rfl⟩
  · intro hf
    simp only [Session.shareScreen, hpc, hf, RTCPeerConnection.addTrack]
    exact ⟨_, rfl, rfl, rfl⟩
  · intro hf hhead
    obtain ⟨t0, ht0⟩ := Option.isSome_iff_exists.mp hhead
    simp [MediaService.replaceTrack, ht0, hf]

/-- C7 amended witness: swapping the video track of the full camera session
for the screen track publishes nothing and keeps the signaling state. -/
theorem replace_track_witness :
    (demoFreshPC.senders.find? (fun s => s.kind == "video")).isSome = true ∧
    ((Session.shareScreen demoSession demoScreenTrack).outbox = demoSession.outbox ∧
     ((demoFreshPC.senders.find? (fun s => s.kind == "video")).isSome = true →
        ∃ pc1, (Session.shareScreen demoSession demoScreenTrack).webrtc.peerConnection = some pc1 ∧
          pc1.senders = replaceFirstOfKind demoFreshPC.senders "video" demoScreenTrack ∧
          pc1.signalingState = demoFreshPC.signalingState ∧
          pc1.localDescription = demoFreshPC.localDescription ∧
          pc1.remoteDescription = demoFreshPC.remoteDescription) ∧
     (demoFreshPC.senders.find? (fun s => s.kind == "video") = none →
        ∃ pc1, (Session.shareScreen demoSession demoScreenTrack).webrtc.peerConnection = some pc1 ∧
          pc1.senders = demoFreshPC.senders ++ [demoScreenTrack] ∧
          pc1.signalingState = demoFreshPC.signalingState) ∧
     (demoFreshPC.senders.find? (fun s => s.kind == "video") = none →
        (MediaStream.getVideoTracks demoStream).head?.isSome = true →
        MediaService.replaceTrack demoFreshPC demoStream "video" = .ok demoFreshPC)) :=
  ⟨by decide,
   replace_track_no_renegotiation demoSession demoFreshPC demoScreenTrack demoStream rfl⟩

/-- A device environment where the camera is in use by another application
and an audio-only request would succeed. -/
def busyEnv : MediaDevicesEnv := ⟨.error .NotReadableError, .ok demoAudioStream⟩

/-- A device environment where the user denied the permission prompt. -/
def deniedEnv : MediaDevicesEnv := ⟨.error .NotAllowedError, .ok demoAudioStream⟩

/-- C9 counterexample: when the camera is in use (NotReadableError) the code
does retry automatically — a second acquisition with audio-only
constraints — and surfaces no failure at all: the caller receives the
fallback stream, against the claim that every failed acquisition surfaces
immediately and is never retried. -/
theorem getUserMedia_autoretry_cex :
    (MediaService.getUserMedia busyEnv).2 = 2 ∧
    (MediaService.getUserMedia busyEnv).1 = .ok demoAudioStream :=
  ⟨rfl, rfl⟩

/-- C9 amended: permission denial and missing devices are surfaced
immediately, without retry, as plain errors whose messages embed the
distinct DOMException names (not distinct error types); camera-in-use
failures (NotReadableError or AbortError) are automatically retried once
with audio-only constraints, surfacing an error only when that also fails;
whenever getUserMedia surfaces an error, initializeSession propagates it
and never constructs the negotiator. -/
theorem getUserMedia_error_amended (env : MediaDevicesEnv) (roomId userId : String) :
    (env.fullRequest = .error .NotAllowedError →
      MediaService.getUserMedia env = (.error "Failed to access media: NotAllowedError", 1) ∧
      initializeSessionStart env roomId userId
        = .error "Failed to access media: NotAllowedError") ∧
    (env.fullRequest = .error .NotFoundError →
      MediaService.getUserMedia env = (.error "Failed to access media: NotFoundError", 1) ∧
      initializeSessionStart env roomId userId
        = .error "Failed to access media: NotFoundError") ∧
    (env.fullRequest = .error .NotReadableError ∨ env.fullRequest = .error .AbortError →
      (MediaService.getUserMedia env).2 = 2 ∧
      (∀ s, env.audioOnlyRequest = .ok s → (MediaService.getUserMedia env).1 = .ok s) ∧
      (∀ e, env.audioOnlyRequest = .error e →
        (MediaService.getUserMedia env).1
          = .error "Microphone unavailable. Close other apps using it.")) ∧
    (∀ msg, (MediaService.getUserMedia env).1 = .error msg →
      initializeSessionStart env roomId userId = .error msg) := by
  refine ⟨?_, ?_, ?_, ?_⟩
  · intro h
    constructor
    · simp [MediaService.getUserMedia, h, MediaErrorName.name]
    · simp [initializeSessionStart, MediaService.getUserMedia, h, MediaErrorName.name]
  · intro h
    constructor
    · simp [MediaService.getUserMedia, h, MediaErrorName.name]
    · simp [initializeSessionStart, MediaService.getUserMedia, h, MediaErrorName.name]
  · rintro (h | h) <;>
      cases ha : env.audioOnlyRequest <;>
        refine ⟨?_, fun s hs => ?_, fun e he => ?_⟩ <;>
          simp [MediaService.getUserMedia, h, ha] <;>
            simp_all
  · intro msg hmsg
    simp only [initializeSessionStart, hmsg]

/-- C9 amended witness: a denied permission surfaces the NotAllowedError
message at once and initialization fails without a negotiator. -/
theorem getUserMedia_error_witness :
    deniedEnv.fullRequest = .error .NotAllowedError ∧
    (MediaService.getUserMedia deniedEnv
        = (.error "Failed to access media: NotAllowedError", 1) ∧
      initializeSessionStart deniedEnv "r1" "A"
        = .error "Failed to access media: NotAllowedError") :=
  ⟨rfl, (getUserMedia_error_amended deniedEnv "r1" "A").1 rfl⟩

/-- C8 witness: closing the freshly joined session stops both of its local
tracks and a repeated close or a resumed restart is a no-op. -/
theorem close_witness :
    (WebRTCService.close demoSession.webrtc).1.peerConnection = none ∧
    (WebRTCService.close demoSession.webrtc).1.localStream = none ∧
    WebRTCService.close (WebRTCService.close demoSession.webrtc).1
      = ((WebRTCService.close demoSession.webrtc).1, none) ∧
    (match (WebRTCService.close demoSession.webrtc).2 with
     | none => demoSession.webrtc.localStream = none
     | some st => MediaStream.allStopped st = true) ∧
    WebRTCService.restartIce (WebRTCService.close demoSession.webrtc).1
      = (WebRTCService.close demoSession.webrtc).1 :=
  close_idempotent_and_stops_tracks demoSession.webrtc

/-- C10 witness: disabling on the camera stream returns false even though
both kinds of track exist and were modified. -/
theorem toggle_witness :
    ((MediaService.toggleAudio demoStream false).2 = true ↔
      ((∃ t ∈ demoStream.tracks, t.kind = "audio") ∧ false = true)) ∧
    ((MediaService.toggleVideo demoStream false).2 = true ↔
      ((∃ t ∈ demoStream.tracks, t.kind = "video") ∧ false = true)) ∧
    ((MediaService.toggleAudio demoStream false).1.tracks.all
        (fun t => !(t.kind == "audio") || (t.enabled == false)) = true) ∧
    ((MediaService.toggleVideo demoStream false).1.tracks.all
        (fun t => !(t.kind == "video") || (t.enabled == false)) = true) ∧
    (MediaService.toggleAudio demoStream false).2 = false ∧
    (MediaService.toggleVideo demoStream false).2 = false :=
  toggle_sets_tracks_and_result demoStream false

end Clarioo
